import Mathlib

/-!
# Word-of-Wisdom proof-of-work core: a shallow embedding

This file embeds the proof-of-work challenge core of the `word-of-wisdom`
repository in Lean 4 and proves the specification claims about it.

Conventions of the embedding:
* Go byte slices are `List Nat` with entries below 256.
* `math/big.Int` values are Lean `Int`; `big.Int.Bytes()` is the minimal
  big-endian byte string of the absolute value (`natBytes ∘ Int.natAbs`).
* `time.Time` is an `Int` of nanoseconds since the Unix epoch; `Unix()` is
  floor division by 10^9 and `After` is strict `>` , as in Go.
* `crypto/sha256` is implemented concretely (FIPS 180-4) over byte lists.
* Functions that can panic in Go (out-of-range slice indexing) return
  `Option`, with `none` marking the panic.

All definitions are executable; witnesses evaluate them on concrete inputs.
-/

set_option maxRecDepth 100000

namespace WoW

/-! ## Byte-string primitives -/

/-- Big-endian bytes of `n`, exactly `k` bytes wide (`n` is taken mod `256^k`).
This is `encoding/binary.BigEndian` for the fixed-width integer writes. -/
def beBytes : Nat → Nat → List Nat
  | 0, _ => []
  | k + 1, n => beBytes k (n / 256) ++ [n % 256]

/-- Read a big-endian byte string back as a natural number. -/
def ofBytes (l : List Nat) : Nat := l.foldl (fun a b => 256 * a + b) 0

/-- Minimal big-endian byte representation, with explicit recursion fuel
(`fuel ≥ n` suffices); empty for 0, no leading zero bytes otherwise. -/
def natBytesF : Nat → Nat → List Nat
  | 0, _ => []
  | fuel + 1, n => if n = 0 then [] else natBytesF fuel (n / 256) ++ [n % 256]

/-- `big.Int.Bytes()` on the absolute value `n`: minimal big-endian bytes. -/
def natBytes (n : Nat) : List Nat := natBytesF n n

/-! ## SHA-256 (FIPS 180-4), executable over byte lists -/

/-- Truncate to a 32-bit word. -/
def w32 (n : Nat) : Nat := n % 4294967296

/-- Right rotation of a 32-bit word. -/
def rotr32 (s w : Nat) : Nat := w32 ((w >>> s) ||| (w <<< (32 - s)))

/-- FIPS 180-4 Σ₀. -/
def capSigZero (w : Nat) : Nat := rotr32 2 w ^^^ rotr32 13 w ^^^ rotr32 22 w

/-- FIPS 180-4 Σ₁. -/
def capSigOne (w : Nat) : Nat := rotr32 6 w ^^^ rotr32 11 w ^^^ rotr32 25 w

/-- FIPS 180-4 σ₀. -/
def smallSigZero (w : Nat) : Nat := rotr32 7 w ^^^ rotr32 18 w ^^^ (w >>> 3)

/-- FIPS 180-4 σ₁. -/
def smallSigOne (w : Nat) : Nat := rotr32 17 w ^^^ rotr32 19 w ^^^ (w >>> 10)

/-- FIPS 180-4 Ch; complement is xor against the 32-bit all-ones mask. -/
def chf (x y z : Nat) : Nat := (x &&& y) ^^^ ((x ^^^ 4294967295) &&& z)

/-- FIPS 180-4 Maj. -/
def majf (x y z : Nat) : Nat := (x &&& y) ^^^ (x &&& z) ^^^ (y &&& z)

/-- The 64 SHA-256 round constants. -/
def K256 : List Nat :=
  [1116352408, 1899447441, 3049323471, 3921009573, 961987163, 1508970993,
   2453635748, 2870763221, 3624381080, 310598401, 607225278, 1426881987,
   1925078388, 2162078206, 2614888103, 3248222580, 3835390401, 4022224774,
   264347078, 604807628, 770255983, 1249150122, 1555081692, 1996064986,
   2554220882, 2821834349, 2952996808, 3210313671, 3336571891, 3584528711,
   113926993, 338241895, 666307205, 773529912, 1294757372, 1396182291,
   1695183700, 1986661051, 2177026350, 2456956037, 2730485921, 2820302411,
   3259730800, 3345764771, 3516065817, 3600352804, 4094571909, 275423344,
   430227734, 506948616, 659060556, 883997877, 958139571, 1322822218,
   1537002063, 1747873779, 1955562222, 2024104815, 2227730452, 2361852424,
   2428436474, 2756734187, 3204031479, 3329325298]

/-- The initial SHA-256 hash state. -/
def H256 : List Nat :=
  [1779033703, 3144134277, 1013904242, 2773480762,
   1359893119, 2600822924, 528734635, 1541459225]

/-- Group bytes into big-endian 32-bit words (groups of four). -/
def toWords : List Nat → List Nat
  | b0 :: b1 :: b2 :: b3 :: rest =>
      (((b0 * 256 + b1) * 256 + b2) * 256 + b3) :: toWords rest
  | _ => []

/-- SHA-256 padding: append `0x80`, zero bytes to 56 mod 64, then the
bit length as a big-endian 64-bit integer. -/
def sha256pad (msg : List Nat) : List Nat :=
  msg ++ 128 :: (List.replicate ((119 - msg.length % 64) % 64) 0
    ++ beBytes 8 (8 * msg.length))

/-- Extend a 16-word message block by `n` further schedule words. -/
def extendWords (ws : List Nat) : Nat → List Nat
  | 0 => ws
  | n + 1 =>
    let L := ws.length
    let t := w32 (smallSigOne (ws.getD (L - 2) 0) + ws.getD (L - 7) 0 +
                  smallSigZero (ws.getD (L - 15) 0) + ws.getD (L - 16) 0)
    extendWords (ws ++ [t]) n

/-- One SHA-256 round on the 8-word working state. -/
def sha256round (st : List Nat) (k w : Nat) : List Nat :=
  match st with
  | [a, b, c, d, e, f, g, h] =>
    let t1 := w32 (h + capSigOne e + chf e f g + k + w)
    let t2 := w32 (capSigZero a + majf a b c)
    [w32 (t1 + t2), a, b, c, w32 (d + t1), e, f, g]
  | other => other

/-- Compress one 64-byte block into the running hash state. -/
def sha256block (hs : List Nat) (block : List Nat) : List Nat :=
  let ws := extendWords (toWords block) 48
  let fin := (K256.zip ws).foldl (fun st kw => sha256round st kw.1 kw.2) hs
  List.zipWith (fun a b => w32 (a + b)) hs fin

/-- Split into 64-byte chunks; the fuel argument bounds the recursion and any
`fuel ≥ l.length` is enough. -/
def chunk64 : Nat → List Nat → List (List Nat)
  | 0, _ => []
  | _, [] => []
  | fuel + 1, l => l.take 64 :: chunk64 fuel (l.drop 64)

/-- SHA-256 of a byte string, as its 32 digest bytes. -/
def sha256 (msg : List Nat) : List Nat :=
  let p := sha256pad msg
  (((chunk64 p.length p).foldl sha256block H256).map (beBytes 4)).flatten

/-- Sanity check against the FIPS vector for the empty message. -/
theorem sha256_empty_vector :
    sha256 [] =
      [227, 176, 196, 66, 152, 252, 28, 20, 154, 251, 244, 200, 153, 111,
       185, 36, 39, 174, 65, 228, 100, 155, 147, 76, 164, 149, 153, 27,
       120, 82, 184, 85] := by decide

/-- Sanity check against the FIPS vector for `"abc"`. -/
theorem sha256_abc_vector :
    sha256 [97, 98, 99] =
      [186, 120, 22, 191, 143, 1, 207, 234, 65, 65, 64, 222, 93, 174, 34,
       35, 176, 3, 97, 163, 150, 23, 122, 156, 180, 16, 255, 97, 242, 0,
       21, 173] := by decide

/-- Sanity check on a two-block message (bytes 0..69). -/
theorem sha256_twoblock_vector :
    sha256 (List.range 70) =
      [87, 103, 214, 154, 144, 109, 72, 96, 219, 144, 121, 235, 126, 144,
       171, 74, 84, 62, 92, 176, 50, 252, 232, 70, 85, 74, 239, 108, 235,
       96, 14, 29] := by decide

/-! ## The Challenge record (`internal/domain`) -/

/-- `domain.Challenge`. `Signature` and `Solution` are `Option` because the
Go fields are a nilable slice and a nilable pointer. Times are nanoseconds
since the Unix epoch; integers are arbitrary precision like `math/big.Int`. -/
structure Challenge where
  Complexity : Int
  Nonce : List Nat
  ExpiresAt : Int
  Signature : Option (List Nat) := none
  Solution : Option Int := none
deriving DecidableEq

/-- Go `time.Time.Unix()`: whole seconds, i.e. floor division of the
nanosecond instant by 10^9. -/
def unixSec (t : Int) : Int := Int.fdiv t 1000000000

/-- Go `now.After(t)`: strict order on nanosecond instants. -/
def timeAfter (now t : Int) : Bool := now > t

/-- `big.Int.Bytes()`: minimal big-endian bytes of the absolute value. -/
def bigIntBytes (x : Int) : List Nat := natBytes x.natAbs

/-- `binary.Write(buf, BigEndian, int64(n))` for a slice length `n`. -/
def int64beN (n : Nat) : List Nat := beBytes 8 n

/-- `binary.Write(buf, BigEndian, t)` for an `int64` value `t`: the eight
two's-complement bytes, big-endian. -/
def int64beI (t : Int) : List Nat := beBytes 8 (t % 18446744073709551616).toNat

/-- The byte buffer hashed by `Challenge.ID` (`pow_util.go`): length-prefixed
complexity bytes, length-prefixed nonce, then the expiry Unix timestamp. -/
def idPreimage (c : Challenge) : List Nat :=
  int64beN (bigIntBytes c.Complexity).length ++ (bigIntBytes c.Complexity ++
    (int64beN c.Nonce.length ++ (c.Nonce ++
      int64beI (unixSec c.ExpiresAt))))

/-- `Challenge.ID()`: SHA-256 of the field encoding. -/
def challengeID (c : Challenge) : List Nat := sha256 (idPreimage c)

/-- `Challenge.Sign(secret)`: set the signature to SHA-256 of id ∥ secret. -/
def signChallenge (c : Challenge) (secret : List Nat) : Challenge :=
  { c with Signature := some (sha256 (challengeID c ++ secret)) }

/-- `Challenge.VerifySignature(secret)` at instant `now`: false without a
signature, false when expired, else recompute and compare exactly. -/
def verifySignature (c : Challenge) (secret : List Nat) (now : Int) : Bool :=
  match c.Signature with
  | none => false
  | some sig =>
    if timeAfter now c.ExpiresAt then false
    else sha256 (challengeID c ++ secret) == sig

/-- `big.Int.Int64()` as Go's `math/big` computes it: the low 64 bits of the
absolute value cast to a signed 64-bit integer, then negated for negative
values, all with two's-complement wraparound. (The Go documentation calls
the out-of-range result undefined; this is what the library does.) -/
def int64OfBig (x : Int) : Int :=
  let w : Int := (x.natAbs % 18446744073709551616 : Nat)
  let v : Int := if w < 9223372036854775808 then w else w - 18446744073709551616
  let s : Int := if x < 0 then -v else v
  (s + 9223372036854775808) % 18446744073709551616 - 9223372036854775808

/-- The leading-zero loop of `VerifySolution`: `r` index steps remain and the
not-yet-read digest bytes follow; `none` is the index-out-of-range panic Go
would raise on reading past the digest. -/
def checkZeros : List Nat → Nat → Option Bool
  | _, 0 => some true
  | [], _ + 1 => none
  | b :: rest, r + 1 => if b ≠ 0 then some false else checkZeros rest r

/-- `Challenge.VerifySolution(solution)` at instant `now`; `none` marks the
panic of an out-of-range digest index (only conceivable when the required
zero count exceeds the 32 digest bytes and all of them are zero). -/
def verifySolution (c : Challenge) (solution : Int) (now : Int) : Option Bool :=
  if timeAfter now c.ExpiresAt then some false
  else
    let hashBytes := sha256 (challengeID c ++ bigIntBytes solution)
    let requiredZeros := int64OfBig c.Complexity
    if requiredZeros ≤ 0 then some false
    else checkZeros hashBytes requiredZeros.toNat

/-! ## Errors (`internal/errors`, plus `context.Canceled`) -/

/-- The error values the challenge core returns. Distinct constructors model
the distinct `errors.New` values of `internal/errors`; `contextCanceled` is
`context.Canceled`, surfaced by `ctx.Err()` during a cancelled search. -/
inductive GoErr
  | notFound
  | challengeExists
  | challengeExpired
  | invalidSolution
  | invalidChallenge
  | solutionNotFound
  | contextCanceled
  | noQuotes
deriving DecidableEq

/-! ## The in-memory challenge repository (`internal/repository`) -/

/-- A lowercase hexadecimal digit, as its ASCII code. -/
def hexDigit (n : Nat) : Nat := if n < 10 then 48 + n else 87 + n

/-- `hex.EncodeToString`, as ASCII bytes. -/
def hexEncode (bs : List Nat) : List Nat :=
  (bs.map (fun b => [hexDigit (b / 16), hexDigit (b % 16)])).flatten

/-- The map of `challengeMemoryRepository`: hex-encoded challenge id to the
stored record. -/
abbrev Store := List (List Nat × Challenge)

/-- Map lookup. -/
def storeFind : Store → List Nat → Option Challenge
  | [], _ => none
  | (k, c) :: rest, key => if k = key then some c else storeFind rest key

/-- The deep copy the repository makes on both create and get. Note that Go's
`make([]byte, len(sig))` is non-nil even for a nil source, so a `nil`
signature is stored as the empty-but-present one, while a nil `Solution`
pointer stays nil. -/
def copyChallenge (c : Challenge) : Challenge :=
  { Complexity := c.Complexity
    Nonce := c.Nonce
    ExpiresAt := c.ExpiresAt
    Signature := some (c.Signature.getD [])
    Solution := c.Solution }

/-- `CreateChallenge`: insert-if-absent of a deep copy, keyed by hex id;
returns the result and the store afterwards. -/
def createChallenge (st : Store) (c : Challenge) :
    Except GoErr Unit × Store :=
  let key := hexEncode (challengeID c)
  match storeFind st key with
  | some _ => (Except.error GoErr.challengeExists, st)
  | none => (Except.ok (), (key, copyChallenge c) :: st)

/-- `GetChallenge`: lookup by hex-encoded id, returning a deep copy. -/
def getChallenge (st : Store) (id : List Nat) : Except GoErr Challenge :=
  match storeFind st (hexEncode id) with
  | none => Except.error GoErr.notFound
  | some c => Except.ok (copyChallenge c)

/-! ## The challenge service (`internal/service/quote.go`) -/

/-- `challengeService.Verify`: repository lookup, then the signature check,
then the solution check, each failure mapped to its own error; `none`
propagates a `VerifySolution` panic. -/
def serviceVerify (st : Store) (secret : List Nat) (id : List Nat)
    (solution : Int) (now : Int) : Option (Except GoErr Unit) :=
  match getChallenge st id with
  | Except.error e => some (Except.error e)
  | Except.ok ch =>
    if ¬ verifySignature ch secret now then
      some (Except.error GoErr.invalidChallenge)
    else
      match verifySolution ch solution now with
      | none => none
      | some false => some (Except.error GoErr.invalidSolution)
      | some true => some (Except.ok ())

/-- The search loop of `Solve` at iteration `i` with `fuel` iterations left
(`i + fuel = 1000000` from the top-level call). The candidate solution
equals the iteration counter: both start at zero and step by one. Each
iteration first polls cancellation, as the `select` with a `default` does. -/
def solveLoop (c : Challenge) (now : Int) (cancelled : Nat → Bool) :
    Nat → Nat → Option (Except GoErr Int)
  | _, 0 => some (Except.error GoErr.solutionNotFound)
  | i, fuel + 1 =>
    if cancelled i then some (Except.error GoErr.contextCanceled)
    else
      match verifySolution c (Int.ofNat i) now with
      | none => none
      | some true => some (Except.ok (Int.ofNat i))
      | some false => solveLoop c now cancelled (i + 1) fuel

/-- `challengeService.Solve`: expiry check, signature check, then the bounded
linear search with the fixed 1,000,000-iteration ceiling. `cancelled i`
says whether the context is already done when iteration `i` polls it. -/
def solve (secret : List Nat) (c : Challenge) (now : Int)
    (cancelled : Nat → Bool) : Option (Except GoErr Int) :=
  if timeAfter now c.ExpiresAt then some (Except.error GoErr.challengeExpired)
  else if ¬ verifySignature c secret now then
    some (Except.error GoErr.invalidChallenge)
  else solveLoop c now cancelled 0 1000000

/-! ## The TCP transport (`internal/transport/tcp/server.go`) -/

/-- ASCII codes of a string; every string involved here is ASCII. -/
def asciiBytes (s : String) : List Nat := s.toList.map Char.toNat

/-- Decimal digits of `n` as ASCII bytes (`fmt`'s `%d`); fuel-driven, any
`fuel ≥ n` gives the representation. -/
def decReprF : Nat → Nat → List Nat
  | 0, n => [48 + n % 10]
  | fuel + 1, n => if n < 10 then [48 + n] else decReprF fuel (n / 10) ++ [48 + n % 10]

/-- Decimal representation of `n`, as ASCII bytes. -/
def decimalRepr (n : Nat) : List Nat := decReprF n n

/-- Go `encoding/json` escaping of one ASCII byte inside a string literal,
with the marshaller's default HTML escaping of `<`, `>`, `&`. -/
def jsonEscapeByte (b : Nat) : List Nat :=
  if b = 34 then [92, 34]
  else if b = 92 then [92, 92]
  else if b = 10 then [92, 110]
  else if b = 13 then [92, 114]
  else if b = 9 then [92, 116]
  else if b < 32 then [92, 117, 48, 48, hexDigit (b / 16), hexDigit (b % 16)]
  else if b = 60 then [92, 117, 48, 48, 51, 99]
  else if b = 62 then [92, 117, 48, 48, 51, 101]
  else if b = 38 then [92, 117, 48, 48, 50, 54]
  else [b]

/-- `json.Marshal` of `writeError`'s struct: the bytes of the object with one
`error` field holding the escaped message string. -/
def jsonErrorBytes (msg : List Nat) : List Nat :=
  [123, 34, 101, 114, 114, 111, 114, 34, 58, 34] ++
  (msg.map jsonEscapeByte).flatten ++ [34, 125]

/-- The `Error()` strings of the core's error values, as ASCII bytes. -/
def errMessage : GoErr → List Nat
  | GoErr.notFound => asciiBytes "not found"
  | GoErr.challengeExists => asciiBytes "challenge already exists"
  | GoErr.challengeExpired => asciiBytes "challenge has expired"
  | GoErr.invalidSolution => asciiBytes "invalid solution"
  | GoErr.invalidChallenge => asciiBytes "invalid challenge"
  | GoErr.solutionNotFound => asciiBytes "solution not found"
  | GoErr.contextCanceled => asciiBytes "context canceled"
  | GoErr.noQuotes => asciiBytes "no quotes available"

/-- `writeResponse` framing: the payload length as a big-endian `uint32`
(truncating, as `uint32(len(response))` does), then the payload itself. -/
def frame (payload : List Nat) : List Nat := beBytes 4 payload.length ++ payload

/-- `domain.Quote`, with its strings as byte lists. -/
structure Quote where
  Text : List Nat
  Author : List Nat
  Source : List Nat
deriving DecidableEq

/-- Everything `handleConnection` consumes besides the request bytes, so the
handler is a pure function of one connection: the JSON marshalling of the
two success payloads (`json.Marshal` cannot fail on them), the outcome of
`Generate` (its random nonce included) and of the quote fetch — each with
the error's message text when it fails — the `io.ReadFull` error texts for
the two fixed-size reads, and the state the verification runs against. -/
structure HandlerEnv where
  marshalChallenge : Challenge → List Nat
  marshalQuote : Quote → List Nat
  genResult : Except (List Nat) Challenge
  quoteResult : Except (List Nat) Quote
  readIdErrMsg : List Nat
  readSolErrMsg : List Nat
  store : Store
  secret : List Nat
  now : Int

/-- What handling one connection produces: the framed response written, if
any, and whether the connection is closed afterwards (it always is — the
handler closes on every path through its `defer`). -/
structure ConnResult where
  response : Option (List Nat)
  closed : Bool
deriving DecidableEq

/-- `Server.handleConnection`: read one command byte; on `0x01` generate and
send a challenge, on `0x02` read a 32-byte id then a 32-byte big-endian
unsigned solution, verify, and send a quote; on any other byte send a
structured unknown-command error. Every response, success or error, goes
through `frame`; `response = none` models the paths that write nothing (a
failed command read, or a panic below `Verify`). -/
def handleConn (env : HandlerEnv) (input : List Nat) : ConnResult :=
  match input with
  | [] => ⟨none, true⟩
  | cmd :: rest =>
    if cmd = 1 then
      match env.genResult with
      | Except.error msg => ⟨some (frame (jsonErrorBytes msg)), true⟩
      | Except.ok ch => ⟨some (frame (env.marshalChallenge ch)), true⟩
    else if cmd = 2 then
      if rest.length < 32 then
        ⟨some (frame (jsonErrorBytes env.readIdErrMsg)), true⟩
      else
        let id := rest.take 32
        let rest2 := rest.drop 32
        if rest2.length < 32 then
          ⟨some (frame (jsonErrorBytes env.readSolErrMsg)), true⟩
        else
          match serviceVerify env.store env.secret id (ofBytes (rest2.take 32)) env.now with
          | none => ⟨none, true⟩
          | some (Except.error e) =>
            ⟨some (frame (jsonErrorBytes (errMessage e))), true⟩
          | some (Except.ok _) =>
            match env.quoteResult with
            | Except.error msg => ⟨some (frame (jsonErrorBytes msg)), true⟩
            | Except.ok q => ⟨some (frame (env.marshalQuote q)), true⟩
    else
      ⟨some (frame (jsonErrorBytes
        (asciiBytes "unknown command: " ++ decimalRepr cmd))), true⟩

/-! ## Helper lemmas about the byte encodings -/

theorem beBytes_length (k n : Nat) : (beBytes k n).length = k := by
  induction k generalizing n with
  | zero => rfl
  | succ k ih => simp [beBytes, ih]

theorem ofBytes_snoc (l : List Nat) (b : Nat) :
    ofBytes (l ++ [b]) = 256 * ofBytes l + b := by
  simp [ofBytes, List.foldl_append]

theorem ofBytes_beBytes (k n : Nat) : ofBytes (beBytes k n) = n % 256 ^ k := by
  induction k generalizing n with
  | zero => simp [beBytes, ofBytes, Nat.mod_one]
  | succ k ih =>
    rw [beBytes, ofBytes_snoc, ih]
    have h := Nat.mod_mul (a := 256) (b := 256 ^ k) (x := n)
    have hp : 256 ^ (k + 1) = 256 * 256 ^ k := by ring
    rw [hp]
    omega

theorem ofBytes_natBytesF : ∀ fuel n, n ≤ fuel → ofBytes (natBytesF fuel n) = n
  | 0, n, h => by
    have hn : n = 0 := Nat.le_zero.mp h
    simp [hn, natBytesF, ofBytes]
  | fuel + 1, n, h => by
    by_cases h0 : n = 0
    · simp [natBytesF, h0, ofBytes]
    · have hdiv : n / 256 ≤ fuel := by
        have := Nat.div_lt_self (Nat.pos_of_ne_zero h0) (by norm_num : 1 < 256)
        omega
      rw [natBytesF, if_neg h0, ofBytes_snoc,
        ofBytes_natBytesF fuel (n / 256) hdiv]
      omega

theorem ofBytes_natBytes (n : Nat) : ofBytes (natBytes n) = n :=
  ofBytes_natBytesF n n (Nat.le_refl n)

theorem natBytes_inj {m n : Nat} (h : natBytes m = natBytes n) : m = n := by
  have := congrArg ofBytes h
  rwa [ofBytes_natBytes, ofBytes_natBytes] at this

theorem int64beN_length (n : Nat) : (int64beN n).length = 8 := by
  simp [int64beN, beBytes_length]

theorem int64beN_inj {m n : Nat} (hm : m < 18446744073709551616)
    (hn : n < 18446744073709551616) (h : int64beN m = int64beN n) : m = n := by
  have h2 := congrArg ofBytes h
  rw [int64beN, int64beN, ofBytes_beBytes, ofBytes_beBytes] at h2
  norm_num at h2
  omega

theorem int64beI_inj {s t : Int}
    (hs1 : -9223372036854775808 ≤ s) (hs2 : s < 9223372036854775808)
    (ht1 : -9223372036854775808 ≤ t) (ht2 : t < 9223372036854775808)
    (h : int64beI s = int64beI t) : s = t := by
  have h2 := congrArg ofBytes h
  rw [int64beI, int64beI, ofBytes_beBytes, ofBytes_beBytes] at h2
  norm_num at h2
  omega

/-- The id pre-image determines — and is determined by — the absolute value
of the complexity, the nonce, and the Unix-second expiry timestamp, under
the size bounds every realizable Go value satisfies. -/
theorem idPreimage_eq_iff (c1 c2 : Challenge)
    (hb1 : (bigIntBytes c1.Complexity).length < 18446744073709551616)
    (hb2 : (bigIntBytes c2.Complexity).length < 18446744073709551616)
    (hn1 : c1.Nonce.length < 18446744073709551616)
    (hn2 : c2.Nonce.length < 18446744073709551616)
    (hu1l : -9223372036854775808 ≤ unixSec c1.ExpiresAt)
    (hu1r : unixSec c1.ExpiresAt < 9223372036854775808)
    (hu2l : -9223372036854775808 ≤ unixSec c2.ExpiresAt)
    (hu2r : unixSec c2.ExpiresAt < 9223372036854775808) :
    idPreimage c1 = idPreimage c2 ↔
      (c1.Complexity.natAbs = c2.Complexity.natAbs ∧ c1.Nonce = c2.Nonce ∧
       unixSec c1.ExpiresAt = unixSec c2.ExpiresAt) := by
  constructor
  · intro h
    unfold idPreimage at h
    obtain ⟨h1, h2⟩ := List.append_inj h
      (by rw [int64beN_length, int64beN_length])
    have hlen := int64beN_inj hb1 hb2 h1
    obtain ⟨hcb, h3⟩ := List.append_inj h2 hlen
    have habs : c1.Complexity.natAbs = c2.Complexity.natAbs :=
      natBytes_inj (by simpa [bigIntBytes] using hcb)
    obtain ⟨h4, h5⟩ := List.append_inj h3
      (by rw [int64beN_length, int64beN_length])
    have hnl := int64beN_inj hn1 hn2 h4
    obtain ⟨hnonce, h6⟩ := List.append_inj h5 hnl
    exact ⟨habs, hnonce, int64beI_inj hu1l hu1r hu2l hu2r h6⟩
  · rintro ⟨h1, h2, h3⟩
    unfold idPreimage bigIntBytes
    rw [h1, h2, h3]

/-- The id ignores the signature and solution fields definitionally. -/
theorem challengeID_irrel (c : Challenge) (sig : Option (List Nat))
    (sol : Option Int) :
    challengeID { c with Signature := sig, Solution := sol } = challengeID c :=
  rfl

/-- Signing does not change the id. -/
theorem challengeID_signChallenge (c : Challenge) (secret : List Nat) :
    challengeID (signChallenge c secret) = challengeID c := rfl

/-! ## Claim C1 -/

/-- C1 (corrected). `Challenge.ID` is a pure deterministic function of
`(complexity, nonce, expiresAt)` only: equal values of the three fields give
equal ids whatever the signature and solution are. But changing one of the
three fields does not always change the id: the hash pre-image contains only
the absolute-value bytes of the complexity and the whole-second Unix
timestamp of the expiry, and (under the size bounds any realizable Go value
satisfies) it is determined exactly by `(|complexity|, nonce, unix seconds)`
— so complexities `c` and `-c`, or expiry instants within the same second,
yield the same id, while any change to `|complexity|`, the nonce, or the
Unix-second timestamp changes the SHA-256 input of the id. -/
theorem c1_id_function_of_fields :
    (∀ c1 c2 : Challenge, c1.Complexity = c2.Complexity →
      c1.Nonce = c2.Nonce → c1.ExpiresAt = c2.ExpiresAt →
      challengeID c1 = challengeID c2) ∧
    (∀ c1 c2 : Challenge,
      (bigIntBytes c1.Complexity).length < 18446744073709551616 →
      (bigIntBytes c2.Complexity).length < 18446744073709551616 →
      c1.Nonce.length < 18446744073709551616 →
      c2.Nonce.length < 18446744073709551616 →
      -9223372036854775808 ≤ unixSec c1.ExpiresAt →
      unixSec c1.ExpiresAt < 9223372036854775808 →
      -9223372036854775808 ≤ unixSec c2.ExpiresAt →
      unixSec c2.ExpiresAt < 9223372036854775808 →
      (idPreimage c1 = idPreimage c2 ↔
        (c1.Complexity.natAbs = c2.Complexity.natAbs ∧ c1.Nonce = c2.Nonce ∧
         unixSec c1.ExpiresAt = unixSec c2.ExpiresAt))) := by
  constructor
  · intro c1 c2 h1 h2 h3
    unfold challengeID idPreimage bigIntBytes
    rw [h1, h2, h3]
  · intro c1 c2 hb1 hb2 hn1 hn2 hu1l hu1r hu2l hu2r
    exact idPreimage_eq_iff c1 c2 hb1 hb2 hn1 hn2 hu1l hu1r hu2l hu2r

/-- Witness for C1: both parts applied at concrete challenges. -/
theorem c1_id_function_of_fields_witness :
    challengeID (Challenge.mk 5 [1] 3 none none) =
      challengeID (Challenge.mk 5 [1] 3 (some [9]) (some 4)) ∧
    (idPreimage (Challenge.mk 5 [1] 3 none none) =
        idPreimage (Challenge.mk (-5) [1] 3 none none) ↔
      ((5 : Int).natAbs = (-5 : Int).natAbs ∧ ([1] : List Nat) = [1] ∧
       unixSec 3 = unixSec 3)) := by
  constructor
  · exact c1_id_function_of_fields.1 _ _ rfl rfl rfl
  · exact c1_id_function_of_fields.2 _ _ (by decide) (by decide) (by decide)
      (by decide) (by decide) (by decide) (by decide) (by decide)

/-- Counterexample to C1 as stated: complexities `5` and `-5` (same nonce,
same expiry) are different field values yet give the same id, because the
encoding hashes `big.Int.Bytes()`, the bytes of the absolute value. -/
theorem c1_counterexample :
    (Challenge.mk 5 [1] 3 none none).Complexity ≠
      (Challenge.mk (-5) [1] 3 none none).Complexity ∧
    (Challenge.mk 5 [1] 3 none none).Nonce =
      (Challenge.mk (-5) [1] 3 none none).Nonce ∧
    (Challenge.mk 5 [1] 3 none none).ExpiresAt =
      (Challenge.mk (-5) [1] 3 none none).ExpiresAt ∧
    challengeID (Challenge.mk 5 [1] 3 none none) =
      challengeID (Challenge.mk (-5) [1] 3 none none) := by
  refine ⟨by decide, rfl, rfl, ?_⟩
  have h : idPreimage (Challenge.mk 5 [1] 3 none none) =
      idPreimage (Challenge.mk (-5) [1] 3 none none) := by decide
  unfold challengeID
  rw [h]

/-! ## Claim C2 -/

/-- C2 (corrected). After `Sign(secret)`: verification with the same secret
succeeds iff the challenge is not expired; verification always fails when no
signature is present; verification with a secret whose recomputed digest
differs from the stored one fails (so a different secret fails except in the
case of a SHA-256 collision); and a post-signing field mutation invalidates
the signature only when it changes the id — a mutated challenge that keeps
the id of the signed one (such as negating the complexity) still verifies
whenever it is unexpired, contrary to the claim as stated. -/
theorem c2_sign_verify :
    (∀ (c : Challenge) (secret : List Nat) (now : Int),
      verifySignature (signChallenge c secret) secret now =
        !timeAfter now c.ExpiresAt) ∧
    (∀ (c : Challenge) (secret : List Nat) (now : Int), c.Signature = none →
      verifySignature c secret now = false) ∧
    (∀ (c : Challenge) (s1 s2 : List Nat) (now : Int),
      sha256 (challengeID c ++ s2) ≠ sha256 (challengeID c ++ s1) →
      verifySignature (signChallenge c s1) s2 now = false) ∧
    (∀ (c c' : Challenge) (secret : List Nat) (now : Int),
      challengeID c' = challengeID c →
      c'.Signature = (signChallenge c secret).Signature →
      verifySignature c' secret now = !timeAfter now c'.ExpiresAt) := by
  refine ⟨?_, ?_, ?_, ?_⟩
  · intro c secret now
    simp only [verifySignature, signChallenge]
    cases h : timeAfter now c.ExpiresAt <;> simp [h, challengeID_irrel]
  · intro c secret now h
    simp [verifySignature, h]
  · intro c s1 s2 now h
    simp only [verifySignature, signChallenge]
    cases hx : timeAfter now c.ExpiresAt <;>
      simp [hx, beq_eq_false_iff_ne, challengeID_irrel, h]
  · intro c c' secret now hid hsig
    have hs : c'.Signature = some (sha256 (challengeID c ++ secret)) := hsig
    simp only [verifySignature, hs, hid]
    cases h : timeAfter now c'.ExpiresAt <;> simp [h]

/-- Witness for C2: the four parts applied at concrete challenges and
secrets (ASCII secret `"s"` is `[115]`, `"t"` is `[116]`). -/
theorem c2_sign_verify_witness :
    (verifySignature
        (signChallenge (Challenge.mk 5 [1] 1000000000000 none none) [115])
        [115] 0 =
      !timeAfter 0 (Challenge.mk 5 [1] 1000000000000 none none).ExpiresAt) ∧
    verifySignature (Challenge.mk 5 [1] 1000000000000 none none) [115] 0 =
      false ∧
    verifySignature
        (signChallenge (Challenge.mk 5 [1] 1000000000000 none none) [115])
        [116] 0 = false ∧
    verifySignature
        { signChallenge (Challenge.mk 5 [1] 1000000000000 none none) [115] with
            Complexity := -5 } [115] 0 =
      !timeAfter 0
        ({ signChallenge (Challenge.mk 5 [1] 1000000000000 none none) [115] with
            Complexity := -5 } : Challenge).ExpiresAt := by
  refine ⟨c2_sign_verify.1 _ _ _, c2_sign_verify.2.1 _ _ _ rfl, ?_, ?_⟩
  · exact c2_sign_verify.2.2.1 _ _ _ _ (by decide)
  · exact c2_sign_verify.2.2.2 _ _ _ _ (by decide) rfl

/-- Counterexample to C2 as stated: mutating the signed field `complexity`
from `5` to `-5` after signing does not make `VerifySignature` with the
original secret return false — the id, and hence the recomputed digest, is
unchanged, so verification still succeeds. -/
theorem c2_counterexample :
    ({ signChallenge (Challenge.mk 5 [1] 1000000000000 none none) [115] with
        Complexity := -5 } : Challenge).Complexity ≠
      (Challenge.mk 5 [1] 1000000000000 none none).Complexity ∧
    ({ signChallenge (Challenge.mk 5 [1] 1000000000000 none none) [115] with
        Complexity := -5 } : Challenge).Signature =
      (signChallenge (Challenge.mk 5 [1] 1000000000000 none none)
        [115]).Signature ∧
    verifySignature
      { signChallenge (Challenge.mk 5 [1] 1000000000000 none none) [115] with
          Complexity := -5 } [115] 0 = true := by
  refine ⟨by decide, rfl, by decide⟩

/-! ## Helper lemmas for solution verification -/

/-- `big.Int.Int64()` is the identity on values representable in an int64. -/
theorem int64OfBig_small {x : Int} (h1 : -9223372036854775808 < x)
    (h2 : x < 9223372036854775808) : int64OfBig x = x := by
  simp only [int64OfBig]
  split_ifs <;> omega

/-- The SHA-256 round function keeps the state length. -/
theorem sha256round_length (st : List Nat) (k w : Nat) :
    (sha256round st k w).length = st.length := by
  unfold sha256round
  split <;> simp

/-- Folding rounds keeps the state length. -/
theorem foldl_round_length (l : List (Nat × Nat)) (hs : List Nat) :
    (l.foldl (fun st kw => sha256round st kw.1 kw.2) hs).length = hs.length := by
  induction l generalizing hs with
  | nil => rfl
  | cons p t ih => rw [List.foldl_cons, ih, sha256round_length]

/-- One block compression keeps the state length. -/
theorem sha256block_length (hs b : List Nat) :
    (sha256block hs b).length = hs.length := by
  simp [sha256block, List.length_zipWith, foldl_round_length]

/-- Folding blocks keeps the state length. -/
theorem foldl_block_length (chunks : List (List Nat)) (hs : List Nat) :
    (chunks.foldl sha256block hs).length = hs.length := by
  induction chunks generalizing hs with
  | nil => rfl
  | cons b t ih => rw [List.foldl_cons, ih, sha256block_length]

/-- Serializing words to big-endian bytes quadruples the length. -/
theorem flatten_be4_length (ws : List Nat) :
    ((ws.map (beBytes 4)).flatten).length = 4 * ws.length := by
  induction ws with
  | nil => rfl
  | cons w t ih => simp [ih, beBytes_length]; ring

/-- Every SHA-256 digest is exactly 32 bytes. -/
theorem sha256_length (msg : List Nat) : (sha256 msg).length = 32 := by
  unfold sha256
  rw [flatten_be4_length, foldl_block_length]
  rfl

/-- The leading-zero loop accepts exactly when the required count fits the
digest and every required byte is zero. -/
theorem checkZeros_true_iff : ∀ (d : List Nat) (r : Nat),
    checkZeros d r = some true ↔
      (r ≤ d.length ∧ ∀ i, i < r → d.getD i 0 = 0) := by
  intro d
  induction d with
  | nil =>
    intro r
    cases r with
    | zero => simp [checkZeros]
    | succ r => simp [checkZeros]
  | cons b rest ih =>
    intro r
    cases r with
    | zero => simp [checkZeros]
    | succ r =>
      by_cases hb : b = 0
      · subst hb
        simp only [checkZeros, if_neg (show ¬(0 : Nat) ≠ 0 by decide)]
        rw [ih r]
        constructor
        · rintro ⟨h1, h2⟩
          refine ⟨by simpa using h1, ?_⟩
          intro i hi
          cases i with
          | zero => rfl
          | succ j => simpa using h2 j (by omega)
        · rintro ⟨h1, h2⟩
          refine ⟨by simpa using h1, ?_⟩
          intro i hi
          simpa using h2 (i + 1) (by omega)
      · simp only [checkZeros, if_pos hb]
        constructor
        · intro h
          exact absurd h (by simp)
        · rintro ⟨_, h2⟩
          exact absurd (by simpa using h2 0 (by omega)) hb

/-- The leading-zero loop rejects exactly when some in-range, in-bounds
digest byte is nonzero. -/
theorem checkZeros_false_iff : ∀ (d : List Nat) (r : Nat),
    checkZeros d r = some false ↔
      ∃ i, i < r ∧ i < d.length ∧ d.getD i 0 ≠ 0 := by
  intro d
  induction d with
  | nil =>
    intro r
    cases r with
    | zero => simp [checkZeros]
    | succ r => simp [checkZeros]
  | cons b rest ih =>
    intro r
    cases r with
    | zero => simp [checkZeros]
    | succ r =>
      by_cases hb : b = 0
      · subst hb
        simp only [checkZeros, if_neg (show ¬(0 : Nat) ≠ 0 by decide)]
        rw [ih r]
        constructor
        · rintro ⟨i, h1, h2, h3⟩
          exact ⟨i + 1, by omega, by simpa using h2, by simpa using h3⟩
        · rintro ⟨i, h1, h2, h3⟩
          cases i with
          | zero => simp at h3
          | succ j =>
            exact ⟨j, by omega, by simpa using h2, by simpa using h3⟩
      · simp only [checkZeros, if_pos hb]
        constructor
        · intro _
          exact ⟨0, by omega, by simp, by simpa using hb⟩
        · intro _
          trivial

/-- For an in-range non-positive complexity, `VerifySolution` returns false
whatever the solution and the instant are (shared by C3 and the C5
exhaustion witness). -/
theorem verifySolution_nonpos {c : Challenge}
    (h1 : -9223372036854775808 < c.Complexity) (h2 : c.Complexity ≤ 0)
    (s now : Int) : verifySolution c s now = some false := by
  unfold verifySolution
  by_cases h : timeAfter now c.ExpiresAt
  · simp [h]
  · simp only [h, if_false, Bool.false_eq_true]
    rw [int64OfBig_small h1 (by omega)]
    simp [h2]

/-! ## Claim C3 -/

/-- C3 (corrected). `VerifySolution` is false for any expired challenge, and
false for any complexity in `(-2^63, 0]`; when the challenge is unexpired
and the int64 truncation `rz` of the complexity is strictly positive, it is
true exactly when `rz` fits the 32-byte digest and the first `rz` digest
bytes are all zero. The claim's "always false for complexity ≤ 0" does not
hold as stated: the code truncates the complexity with `big.Int.Int64()`,
so a negative complexity whose low 64 bits wrap to a positive int64 (such
as `-(2^64 - 1)`, which wraps to `1`) is treated as that positive value and
can verify. -/
theorem c3_verify_solution :
    (∀ (c : Challenge) (s now : Int), timeAfter now c.ExpiresAt = true →
       verifySolution c s now = some false) ∧
    (∀ (c : Challenge) (s now : Int), -9223372036854775808 < c.Complexity →
       c.Complexity ≤ 0 → verifySolution c s now = some false) ∧
    (∀ (c : Challenge) (s now : Int), timeAfter now c.ExpiresAt = false →
       0 < int64OfBig c.Complexity →
       (verifySolution c s now = some true ↔
         ((int64OfBig c.Complexity).toNat ≤ 32 ∧
          ∀ i, i < (int64OfBig c.Complexity).toNat →
            (sha256 (challengeID c ++ bigIntBytes s)).getD i 0 = 0))) := by
  refine ⟨?_, ?_, ?_⟩
  · intro c s now h
    simp [verifySolution, h]
  · intro c s now h1 h2
    exact verifySolution_nonpos h1 h2 s now
  · intro c s now h1 h2
    simp only [verifySolution, h1, Bool.false_eq_true, if_false,
      if_neg (show ¬ int64OfBig c.Complexity ≤ 0 by omega)]
    rw [checkZeros_true_iff, sha256_length]

/-- Witness for C3: the three parts at concrete challenges — an expired one,
one of complexity 0, and an unexpired complexity-1 challenge whose digest
for solution 0 begins with a zero byte. -/
theorem c3_verify_solution_witness :
    verifySolution (Challenge.mk 1 [1] 0 none none) 0 1 = some false ∧
    verifySolution (Challenge.mk 0 [1] 5 none none) 3 0 = some false ∧
    (verifySolution (Challenge.mk 1 [192] 1000000000000 none none) 0 0 =
        some true ↔
      ((int64OfBig 1).toNat ≤ 32 ∧
       ∀ i, i < (int64OfBig 1).toNat →
         (sha256 (challengeID (Challenge.mk 1 [192] 1000000000000 none none) ++
           bigIntBytes 0)).getD i 0 = 0)) := by
  refine ⟨?_, ?_, ?_⟩
  · exact c3_verify_solution.1 _ _ _ (by decide)
  · exact c3_verify_solution.2.1 _ _ _ (by decide) (by decide)
  · exact c3_verify_solution.2.2 _ _ _ (by decide) (by decide)

/-- Counterexample to C3 as stated: the negative complexity `-(2^64 - 1)`
wraps to the int64 value `1`, and with this nonce the solution-0 digest
begins with a zero byte, so `VerifySolution` returns true although the
complexity is `≤ 0`. -/
theorem c3_counterexample :
    (Challenge.mk (-18446744073709551615) [2, 199] 1000000000000 none
        none).Complexity ≤ 0 ∧
    verifySolution
      (Challenge.mk (-18446744073709551615) [2, 199] 1000000000000 none none)
      0 0 = some true := by
  exact ⟨by decide, by decide⟩

/-! ## Claim C4 -/

/-- C4 (confirmed). `Verify` looks the challenge up by id, then checks the
signature, then checks the solution; an unknown id yields the not-found
error, a failed signature check the invalid-challenge error, a failed
solution check the invalid-solution error — three pairwise distinct error
values — and when all three checks pass it returns success. (The repository
hands `Verify` a deep copy of the stored record, hence `copyChallenge`.) -/
theorem c4_service_verify :
    (GoErr.notFound ≠ GoErr.invalidChallenge ∧
     GoErr.notFound ≠ GoErr.invalidSolution ∧
     GoErr.invalidChallenge ≠ GoErr.invalidSolution) ∧
    (∀ (st : Store) (secret id : List Nat) (sol now : Int),
       storeFind st (hexEncode id) = none →
       serviceVerify st secret id sol now =
         some (Except.error GoErr.notFound)) ∧
    (∀ (st : Store) (secret id : List Nat) (sol now : Int) (ch : Challenge),
       storeFind st (hexEncode id) = some ch →
       verifySignature (copyChallenge ch) secret now = false →
       serviceVerify st secret id sol now =
         some (Except.error GoErr.invalidChallenge)) ∧
    (∀ (st : Store) (secret id : List Nat) (sol now : Int) (ch : Challenge),
       storeFind st (hexEncode id) = some ch →
       verifySignature (copyChallenge ch) secret now = true →
       verifySolution (copyChallenge ch) sol now = some false →
       serviceVerify st secret id sol now =
         some (Except.error GoErr.invalidSolution)) ∧
    (∀ (st : Store) (secret id : List Nat) (sol now : Int) (ch : Challenge),
       storeFind st (hexEncode id) = some ch →
       verifySignature (copyChallenge ch) secret now = true →
       verifySolution (copyChallenge ch) sol now = some true →
       serviceVerify st secret id sol now = some (Except.ok ())) := by
  refine ⟨by refine ⟨by decide, by decide, by decide⟩, ?_, ?_, ?_, ?_⟩
  · intro st secret id sol now h
    simp [serviceVerify, getChallenge, h]
  · intro st secret id sol now ch h1 h2
    simp [serviceVerify, getChallenge, h1, h2]
  · intro st secret id sol now ch h1 h2 h3
    simp [serviceVerify, getChallenge, h1, h2, h3]
  · intro st secret id sol now ch h1 h2 h3
    simp [serviceVerify, getChallenge, h1, h2, h3]

/-- Witness for C4: the four behaviours at concrete stores — an empty store,
a stored unsigned challenge, and a stored correctly-signed complexity-1
challenge hit with a wrong solution (5) and with the right one (0). -/
theorem c4_service_verify_witness :
    serviceVerify [] [115] [7] 0 0 = some (Except.error GoErr.notFound) ∧
    serviceVerify [(hexEncode [7], Challenge.mk 1 [192] 1000000000000 none none)]
        [115] [7] 0 0 = some (Except.error GoErr.invalidChallenge) ∧
    serviceVerify
        [(hexEncode [8],
          Challenge.mk 1 [192] 1000000000000
            (some [113, 174, 111, 231, 80, 73, 55, 178, 17, 8, 218, 194, 101,
              107, 147, 98, 239, 197, 105, 149, 16, 197, 248, 183, 140, 91,
              237, 198, 56, 248, 132, 90]) none)]
        [115] [8] 5 0 = some (Except.error GoErr.invalidSolution) ∧
    serviceVerify
        [(hexEncode [8],
          Challenge.mk 1 [192] 1000000000000
            (some [113, 174, 111, 231, 80, 73, 55, 178, 17, 8, 218, 194, 101,
              107, 147, 98, 239, 197, 105, 149, 16, 197, 248, 183, 140, 91,
              237, 198, 56, 248, 132, 90]) none)]
        [115] [8] 0 0 = some (Except.ok ()) := by
  refine ⟨?_, ?_, ?_, ?_⟩
  · exact c4_service_verify.2.1 _ _ _ _ _ (by decide)
  · exact c4_service_verify.2.2.1 _ _ _ _ _
      (Challenge.mk 1 [192] 1000000000000 none none) (by decide) (by decide)
  · exact c4_service_verify.2.2.2.1 _ _ _ _ _
      (Challenge.mk 1 [192] 1000000000000
        (some [113, 174, 111, 231, 80, 73, 55, 178, 17, 8, 218, 194, 101,
          107, 147, 98, 239, 197, 105, 149, 16, 197, 248, 183, 140, 91,
          237, 198, 56, 248, 132, 90]) none)
      (by decide) (by decide) (by decide)
  · exact c4_service_verify.2.2.2.2 _ _ _ _ _
      (Challenge.mk 1 [192] 1000000000000
        (some [113, 174, 111, 231, 80, 73, 55, 178, 17, 8, 218, 194, 101,
          107, 147, 98, 239, 197, 105, 149, 16, 197, 248, 183, 140, 91,
          237, 198, 56, 248, 132, 90]) none)
      (by decide) (by decide) (by decide)

/-! ## Helper lemmas for the solving search -/

/-- The loop returns the first verifying candidate when nothing cancels or
panics before it. -/
theorem solveLoop_ok (fuel : Nat) :
    ∀ (i s : Nat) (c : Challenge) (now : Int) (cancelled : Nat → Bool),
      i ≤ s → s < i + fuel →
      (∀ j, i ≤ j → j ≤ s → cancelled j = false) →
      (∀ j, i ≤ j → j < s → verifySolution c (Int.ofNat j) now = some false) →
      verifySolution c (Int.ofNat s) now = some true →
      solveLoop c now cancelled i fuel = some (Except.ok (Int.ofNat s)) := by
  induction fuel with
  | zero => intro i s c now cancelled h1 h2; omega
  | succ fuel ih =>
    intro i s c now cancelled h1 h2 hc hv hs
    rw [solveLoop, hc i (by omega) (by omega)]
    by_cases his : i = s
    · subst his
      simp only [Bool.false_eq_true, if_false]
      rw [hs]
    · rw [hv i (by omega) (by omega)]
      simp only [Bool.false_eq_true, if_false]
      exact ih (i + 1) s c now cancelled (by omega) (by omega)
        (fun j hj1 hj2 => hc j (by omega) hj2)
        (fun j hj1 hj2 => hv j (by omega) hj2) hs

/-- The loop exhausts its fuel into the no-solution error when every
candidate fails and nothing cancels. -/
theorem solveLoop_exhaust (fuel : Nat) :
    ∀ (i : Nat) (c : Challenge) (now : Int) (cancelled : Nat → Bool),
      (∀ j, i ≤ j → j < i + fuel → cancelled j = false) →
      (∀ j, i ≤ j → j < i + fuel →
        verifySolution c (Int.ofNat j) now = some false) →
      solveLoop c now cancelled i fuel =
        some (Except.error GoErr.solutionNotFound) := by
  induction fuel with
  | zero => intro i c now cancelled _ _; rfl
  | succ fuel ih =>
    intro i c now cancelled hc hv
    rw [solveLoop, hc i (by omega) (by omega), hv i (by omega) (by omega)]
    simp only [Bool.false_eq_true, if_false]
    exact ih (i + 1) c now cancelled
      (fun j hj1 hj2 => hc j (by omega) (by omega))
      (fun j hj1 hj2 => hv j (by omega) (by omega))

/-- The loop surfaces the cancellation error at the first cancelled
iteration when every earlier candidate fails. -/
theorem solveLoop_cancel (fuel : Nat) :
    ∀ (i jc : Nat) (c : Challenge) (now : Int) (cancelled : Nat → Bool),
      i ≤ jc → jc < i + fuel → cancelled jc = true →
      (∀ j, i ≤ j → j < jc → cancelled j = false) →
      (∀ j, i ≤ j → j < jc →
        verifySolution c (Int.ofNat j) now = some false) →
      solveLoop c now cancelled i fuel =
        some (Except.error GoErr.contextCanceled) := by
  induction fuel with
  | zero => intro i jc c now cancelled h1 h2; omega
  | succ fuel ih =>
    intro i jc c now cancelled h1 h2 hjc hc hv
    by_cases hij : i = jc
    · subst hij
      rw [solveLoop, hjc]
      exact rfl
    · rw [solveLoop, hc i (by omega) (by omega), hv i (by omega) (by omega)]
      simp only [Bool.false_eq_true, if_false]
      exact ih (i + 1) jc c now cancelled (by omega) (by omega) hjc
        (fun j hj1 hj2 => hc j (by omega) hj2)
        (fun j hj1 hj2 => hv j (by omega) hj2)

/-! ## Claim C5 -/

/-- C5 (confirmed). For a non-expired, correctly signed challenge, `Solve`
searches linearly from 0 upward, checking `VerifySolution` at each step, up
to the fixed ceiling of 1,000,000 attempts: it returns the least verifying
candidate when one exists below the ceiling; it returns the distinct
no-solution-found error when all 1,000,000 candidates fail; it surfaces the
cancellation error at the first cancelled iteration; and an already-expired
challenge yields the expired-challenge error whatever the cancellation
behaviour is, without the search running. -/
theorem c5_solve :
    (∀ (secret : List Nat) (c : Challenge) (now : Int)
        (cancelled : Nat → Bool),
       timeAfter now c.ExpiresAt = true →
       solve secret c now cancelled =
         some (Except.error GoErr.challengeExpired)) ∧
    (∀ (secret : List Nat) (c : Challenge) (now : Int)
        (cancelled : Nat → Bool) (s : Nat),
       timeAfter now c.ExpiresAt = false →
       verifySignature c secret now = true →
       (∀ j, cancelled j = false) →
       s < 1000000 →
       verifySolution c (Int.ofNat s) now = some true →
       (∀ t : Nat, t < s → verifySolution c (Int.ofNat t) now = some false) →
       solve secret c now cancelled = some (Except.ok (Int.ofNat s))) ∧
    (∀ (secret : List Nat) (c : Challenge) (now : Int)
        (cancelled : Nat → Bool),
       timeAfter now c.ExpiresAt = false →
       verifySignature c secret now = true →
       (∀ j, cancelled j = false) →
       (∀ t : Nat, t < 1000000 →
         verifySolution c (Int.ofNat t) now = some false) →
       solve secret c now cancelled =
         some (Except.error GoErr.solutionNotFound)) ∧
    (∀ (secret : List Nat) (c : Challenge) (now : Int)
        (cancelled : Nat → Bool) (jc : Nat),
       timeAfter now c.ExpiresAt = false →
       verifySignature c secret now = true →
       jc < 1000000 → cancelled jc = true →
       (∀ j, j < jc → cancelled j = false) →
       (∀ t : Nat, t < jc → verifySolution c (Int.ofNat t) now = some false) →
       solve secret c now cancelled =
         some (Except.error GoErr.contextCanceled)) ∧
    (GoErr.solutionNotFound ≠ GoErr.challengeExpired ∧
     GoErr.solutionNotFound ≠ GoErr.contextCanceled ∧
     GoErr.solutionNotFound ≠ GoErr.invalidSolution ∧
     GoErr.contextCanceled ≠ GoErr.challengeExpired) := by
  refine ⟨?_, ?_, ?_, ?_, by decide, by decide, by decide, by decide⟩
  · intro secret c now cancelled h
    simp [solve, h]
  · intro secret c now cancelled s h1 h2 hc hs hv hleast
    rw [solve, h1, h2]
    exact solveLoop_ok 1000000 0 s c now cancelled (by omega)
      (by omega) (fun j _ _ => hc j) (fun j _ hj => hleast j hj) hv
  · intro secret c now cancelled h1 h2 hc hv
    rw [solve, h1, h2]
    exact solveLoop_exhaust 1000000 0 c now cancelled
      (fun j _ _ => hc j) (fun j _ hj => hv j (by omega))
  · intro secret c now cancelled jc h1 h2 hjc hct hc hv
    rw [solve, h1, h2]
    exact solveLoop_cancel 1000000 0 jc c now cancelled (by omega)
      (by omega) hct (fun j _ hj => hc j hj) (fun j _ hj => hv j hj)

/-- Witness for C5: the four behaviours at concrete challenges — an expired
one; a signed complexity-1 challenge whose least solution is 0; and a signed
complexity-0 challenge (no solution can ever verify) once without and once
with cancellation. -/
theorem c5_solve_witness :
    solve [115] (Challenge.mk 1 [3] (-5) none none) 0 (fun _ => false) =
      some (Except.error GoErr.challengeExpired) ∧
    solve [115]
        (Challenge.mk 1 [192] 1000000000000
          (some [113, 174, 111, 231, 80, 73, 55, 178, 17, 8, 218, 194, 101,
            107, 147, 98, 239, 197, 105, 149, 16, 197, 248, 183, 140, 91,
            237, 198, 56, 248, 132, 90]) none) 0 (fun _ => false) =
      some (Except.ok (Int.ofNat 0)) ∧
    solve [115]
        (Challenge.mk 0 [1] 1000000000000
          (some [248, 153, 152, 206, 201, 183, 189, 74, 153, 213, 136, 73,
            231, 254, 238, 165, 77, 49, 147, 55, 143, 44, 15, 221, 155, 141,
            147, 42, 233, 235, 101, 37]) none) 0 (fun _ => false) =
      some (Except.error GoErr.solutionNotFound) ∧
    solve [115]
        (Challenge.mk 0 [1] 1000000000000
          (some [248, 153, 152, 206, 201, 183, 189, 74, 153, 213, 136, 73,
            231, 254, 238, 165, 77, 49, 147, 55, 143, 44, 15, 221, 155, 141,
            147, 42, 233, 235, 101, 37]) none) 0 (fun _ => true) =
      some (Except.error GoErr.contextCanceled) := by
  refine ⟨?_, ?_, ?_, ?_⟩
  · exact c5_solve.1 _ _ _ _ (by decide)
  · exact c5_solve.2.1 _ _ _ _ 0 (by decide) (by decide) (fun j => rfl)
      (by decide) (by decide) (fun t ht => absurd ht (Nat.not_lt_zero t))
  · exact c5_solve.2.2.1 _ _ _ _ (by decide) (by decide) (fun j => rfl)
      (fun t _ => verifySolution_nonpos (by decide) (by decide) _ _)
  · exact c5_solve.2.2.2.1 _ _ _ _ 0 (by decide) (by decide) (by decide) rfl
      (fun j hj => absurd hj (Nat.not_lt_zero j))
      (fun t ht => absurd ht (Nat.not_lt_zero t))

/-! ## Claim C6 -/

/-- C6 (confirmed). When the store already holds an entry under the id of
the challenge being created, `CreateChallenge` fails with the distinct
already-exists error and leaves the store unchanged, and a `GetChallenge`
for that id against the store left behind by the failed insert still
returns (a deep copy of) the originally stored record, not the new value. -/
theorem c6_duplicate_create :
    ∀ (st : Store) (c old : Challenge),
      storeFind st (hexEncode (challengeID c)) = some old →
      createChallenge st c = (Except.error GoErr.challengeExists, st) ∧
      getChallenge (createChallenge st c).2 (challengeID c) =
        Except.ok (copyChallenge old) ∧
      GoErr.challengeExists ≠ GoErr.notFound := by
  intro st c old h
  refine ⟨?_, ?_, by decide⟩
  · simp [createChallenge, h]
  · simp [createChallenge, getChallenge, h]

/-- Witness for C6: a one-entry store hit with a duplicate insert of a
different record that has the same id (solution field differs). -/
theorem c6_duplicate_create_witness :
    createChallenge
        [(hexEncode (challengeID (Challenge.mk 1 [192] 1000000000000 none none)),
          Challenge.mk 1 [192] 1000000000000 none none)]
        (Challenge.mk 1 [192] 1000000000000 none (some 42)) =
      (Except.error GoErr.challengeExists,
        [(hexEncode (challengeID (Challenge.mk 1 [192] 1000000000000 none none)),
          Challenge.mk 1 [192] 1000000000000 none none)]) ∧
    getChallenge
        (createChallenge
          [(hexEncode (challengeID (Challenge.mk 1 [192] 1000000000000 none none)),
            Challenge.mk 1 [192] 1000000000000 none none)]
          (Challenge.mk 1 [192] 1000000000000 none (some 42))).2
        (challengeID (Challenge.mk 1 [192] 1000000000000 none (some 42))) =
      Except.ok (copyChallenge (Challenge.mk 1 [192] 1000000000000 none none)) ∧
    GoErr.challengeExists ≠ GoErr.notFound := by
  exact c6_duplicate_create _ _ _ (by decide)

/-! ## Claim C8 -/

/-- C8 (confirmed). A first command byte other than `0x01` and `0x02` makes
the handler send a framed structured error — the frame being a 4-byte
big-endian unsigned length followed by the JSON `error`-object payload with
the `unknown command: <n>` message — and close the connection; every
response the handler ever writes, success or error, is `frame p` for some
payload `p`; and for any payload below `2^32` bytes the 4-byte prefix
decodes to exactly the payload length, with the payload following intact. -/
theorem c8_unknown_command_framing :
    (∀ (env : HandlerEnv) (b : Nat) (rest : List Nat), b ≠ 1 → b ≠ 2 →
       handleConn env (b :: rest) =
         ⟨some (frame (jsonErrorBytes
           (asciiBytes "unknown command: " ++ decimalRepr b))), true⟩) ∧
    (∀ (env : HandlerEnv) (input : List Nat),
       (handleConn env input).closed = true ∧
       ((handleConn env input).response = none ∨
        ∃ p, (handleConn env input).response = some (frame p))) ∧
    (∀ p : List Nat, p.length < 4294967296 →
       ofBytes ((frame p).take 4) = p.length ∧ (frame p).drop 4 = p) := by
  refine ⟨?_, ?_, ?_⟩
  · intro env b rest h1 h2
    simp [handleConn, h1, h2]
  · intro env input
    cases input with
    | nil => exact ⟨rfl, Or.inl rfl⟩
    | cons b rest =>
      by_cases h1 : b = 1
      · subst h1
        cases hg : env.genResult with
        | error msg =>
          exact ⟨by simp [handleConn, hg],
            Or.inr ⟨jsonErrorBytes msg, by simp [handleConn, hg]⟩⟩
        | ok ch =>
          exact ⟨by simp [handleConn, hg],
            Or.inr ⟨env.marshalChallenge ch, by simp [handleConn, hg]⟩⟩
      · by_cases h2 : b = 2
        · subst h2
          by_cases hr : rest.length < 32
          · exact ⟨by simp [handleConn, h1, hr],
              Or.inr ⟨jsonErrorBytes env.readIdErrMsg,
                by simp [handleConn, h1, hr]⟩⟩
          · by_cases hr2 : rest.length - 32 < 32
            · exact ⟨by simp [handleConn, h1, hr, hr2],
                Or.inr ⟨jsonErrorBytes env.readSolErrMsg,
                  by simp [handleConn, h1, hr, hr2]⟩⟩
            · cases hv : serviceVerify env.store env.secret (List.take 32 rest)
                ((ofBytes (List.take 32 (List.drop 32 rest)) : Nat) : Int)
                env.now with
              | none =>
                exact ⟨by simp [handleConn, h1, hr, hr2, hv],
                  Or.inl (by simp [handleConn, h1, hr, hr2, hv])⟩
              | some res =>
                cases res with
                | error e =>
                  exact ⟨by simp [handleConn, h1, hr, hr2, hv],
                    Or.inr ⟨jsonErrorBytes (errMessage e),
                      by simp [handleConn, h1, hr, hr2, hv]⟩⟩
                | ok u =>
                  cases hq : env.quoteResult with
                  | error msg =>
                    exact ⟨by simp [handleConn, h1, hr, hr2, hv, hq],
                      Or.inr ⟨jsonErrorBytes msg,
                        by simp [handleConn, h1, hr, hr2, hv, hq]⟩⟩
                  | ok q =>
                    exact ⟨by simp [handleConn, h1, hr, hr2, hv, hq],
                      Or.inr ⟨env.marshalQuote q,
                        by simp [handleConn, h1, hr, hr2, hv, hq]⟩⟩
        · exact ⟨by simp [handleConn, h1, h2],
            Or.inr ⟨jsonErrorBytes (asciiBytes "unknown command: " ++
              decimalRepr b), by simp [handleConn, h1, h2]⟩⟩
  · intro p hp
    constructor
    · rw [frame, List.take_left' (beBytes_length 4 p.length), ofBytes_beBytes]
      norm_num
      omega
    · rw [frame, List.drop_left' (beBytes_length 4 p.length)]

/-- Witness for C8: command byte 3 on a concrete environment, the framing
shape on concrete inputs, and the frame decomposition for a tiny payload. -/
theorem c8_unknown_command_framing_witness :
    handleConn
        (HandlerEnv.mk (fun _ => []) (fun _ => []) (Except.error [101])
          (Except.error [101]) [] [] [] [115] 0) [3, 7] =
      ⟨some (frame (jsonErrorBytes
        (asciiBytes "unknown command: " ++ decimalRepr 3))), true⟩ ∧
    ((handleConn
        (HandlerEnv.mk (fun _ => []) (fun _ => []) (Except.error [101])
          (Except.error [101]) [] [] [] [115] 0) [1]).closed = true ∧
     ((handleConn
        (HandlerEnv.mk (fun _ => []) (fun _ => []) (Except.error [101])
          (Except.error [101]) [] [] [] [115] 0) [1]).response = none ∨
      ∃ p, (handleConn
        (HandlerEnv.mk (fun _ => []) (fun _ => []) (Except.error [101])
          (Except.error [101]) [] [] [] [115] 0) [1]).response =
        some (frame p))) ∧
    (ofBytes ((frame [7, 9]).take 4) = 2 ∧ (frame [7, 9]).drop 4 = [7, 9]) := by
  refine ⟨?_, ?_, ?_⟩
  · exact c8_unknown_command_framing.1 _ 3 [7] (by decide) (by decide)
  · exact c8_unknown_command_framing.2.1 _ [1]
  · exact c8_unknown_command_framing.2.2 [7, 9] (by decide)

/-! ## Claim C9 -/

/-- C9 (corrected). When the int64 truncation `rz` of the complexity exceeds
the 32 digest bytes and some of the 32 digest bytes is nonzero, an
unexpired `VerifySolution` returns false having read only in-bounds digest
positions — `some false`, where the embedding's `none` marks Go's
out-of-range panic. The claim's premise "complexity exceeds 32" is not
enough as stated: the code truncates the complexity with `big.Int.Int64()`,
so a complexity above 32 whose low 64 bits wrap to a small positive value
(such as `2^64 + 1`, which wraps to `1`) behaves as that small value and
can return true. (With `rz > 32` and a hypothetically all-zero digest the
loop would read past the digest and panic; no such SHA-256 digest is
known.) -/
theorem c9_big_complexity_fails :
    ∀ (c : Challenge) (s now : Int),
      timeAfter now c.ExpiresAt = false →
      32 < int64OfBig c.Complexity →
      (∃ i, i < 32 ∧
        (sha256 (challengeID c ++ bigIntBytes s)).getD i 0 ≠ 0) →
      verifySolution c s now = some false := by
  intro c s now h1 h2 h3
  simp only [verifySolution, h1, Bool.false_eq_true, if_false,
    if_neg (show ¬ int64OfBig c.Complexity ≤ 0 by omega)]
  rw [checkZeros_false_iff]
  obtain ⟨i, hi, hnz⟩ := h3
  exact ⟨i, by omega, by rw [sha256_length]; omega, hnz⟩

/-- Witness for C9: a complexity-33 challenge; the solution-0 digest has a
nonzero leading byte, so verification fails with in-bounds reads only. -/
theorem c9_big_complexity_fails_witness :
    verifySolution (Challenge.mk 33 [5] 1000000000000 none none) 0 0 =
      some false := by
  exact c9_big_complexity_fails _ _ _ (by decide) (by decide)
    ⟨0, by decide, by decide⟩

/-- Counterexample to C9 as stated: the complexity `2^64 + 1` exceeds 32,
yet its low 64 bits wrap to the int64 value `1`, and with this nonce the
solution-0 digest begins with a zero byte — `VerifySolution` returns true,
not false. -/
theorem c9_counterexample :
    (32 : Int) <
      (Challenge.mk 18446744073709551617 [2, 39] 1000000000000 none
        none).Complexity ∧
    timeAfter 0
      (Challenge.mk 18446744073709551617 [2, 39] 1000000000000 none
        none).ExpiresAt = false ∧
    verifySolution
      (Challenge.mk 18446744073709551617 [2, 39] 1000000000000 none none)
      0 0 = some true := by
  exact ⟨by decide, by decide, by decide⟩

/-! ## Claim C10 -/

/-- C10 (corrected). For a NON-EXPIRED challenge whose signature is nil or
differs from the one recomputed from the service's secret, `Solve` returns
the invalid-challenge error — for every cancellation behaviour, i.e. before
any search iteration can influence the outcome. (The non-expired qualifier
is necessary: the expiry check runs first, so an expired challenge yields
the expired error even when its signature is absent or wrong.) -/
theorem c10_solve_checks_signature :
    ∀ (secret : List Nat) (c : Challenge) (now : Int)
      (cancelled : Nat → Bool),
      timeAfter now c.ExpiresAt = false →
      c.Signature ≠ some (sha256 (challengeID c ++ secret)) →
      solve secret c now cancelled =
        some (Except.error GoErr.invalidChallenge) := by
  intro secret c now cancelled h1 h2
  have hs : verifySignature c secret now = false := by
    unfold verifySignature
    cases hsig : c.Signature with
    | none => rfl
    | some sig =>
      rw [h1]
      simp only [Bool.false_eq_true, if_false]
      rw [beq_eq_false_iff_ne]
      intro he
      exact h2 (by rw [hsig, he])
  rw [solve, h1, hs]
  exact rfl

/-- Witness for C10: a non-expired unsigned challenge. -/
theorem c10_solve_checks_signature_witness :
    solve [115] (Challenge.mk 1 [4] 1000000000000 none none) 0
      (fun _ => false) = some (Except.error GoErr.invalidChallenge) := by
  exact c10_solve_checks_signature _ _ _ _ (by decide) (by simp)

/-- Counterexample to C10 as stated: an expired challenge with a nil
signature makes `Solve` return the expired-challenge error, not the
invalid-challenge error, because the expiry check runs first. -/
theorem c10_counterexample :
    (Challenge.mk 1 [4] (-1) none none).Signature = none ∧
    solve [115] (Challenge.mk 1 [4] (-1) none none) 0 (fun _ => false) =
      some (Except.error GoErr.challengeExpired) ∧
    GoErr.challengeExpired ≠ GoErr.invalidChallenge := by
  exact ⟨rfl, rfl, by decide⟩

end WoW
